import Mathlib

/-!
Shallow embedding of the phone-extractor orchestration core
(src/app.py, src/enhanced_scrapers.py, src/scrapers.py).

Text is modelled as `List Char` (ASCII: the regex classes `\s`, `\d`, `\D`
are modelled on their ASCII behaviour, which is what the scraped inputs
exercise).  Platform identifiers are `String`.  Machine-level concerns
(Redis transport, SQLAlchemy commits, Playwright) are abstracted to the
values they deliver to the modelled code paths, as noted at each definition.
-/

namespace PhoneExtractor

/-! ### Phone canonicalization

`format_phone` and `extract_phone_candidates` embed
src/enhanced_scrapers.py lines 81-100; `validate_phone_number` embeds
src/scrapers.py lines 42-58. -/

/-- Digits of a string: models Python `re.sub(r'\D', '', s)` (ASCII digits). -/
def digitsOf (s : List Char) : List Char := s.filter Char.isDigit

/-- Character class `[\s\-\(\)\.\+]` of `validate_phone_number`'s
`re.sub(r'[\s\-\(\)\.\+]', '', ...)` (`\s` on ASCII whitespace). -/
def isSepStripped (c : Char) : Bool :=
  c.isWhitespace || c = '-' || c = '(' || c = ')' || c = '.' || c = '+'

/-- Embeds `format_phone(digits)` of src/enhanced_scrapers.py lines 83-89:
an 11-character digit string starting with `1` drops the `1` and formats as
`+1 (NNN) NNN-NNNN`; a 10-character digit string formats as `(NNN) NNN-NNNN`;
anything else is returned unchanged. -/
def format_phone (digits : List Char) : List Char :=
  if digits.head? = some '1' ∧ digits.length = 11 then
    let d := digits.drop 1
    ['+', '1', ' ', '('] ++ d.take 3 ++ [')', ' '] ++ (d.drop 3).take 3 ++ ['-'] ++ d.drop 6
  else if digits.length = 10 then
    ['('] ++ digits.take 3 ++ [')', ' '] ++ (digits.drop 3).take 3 ++ ['-'] ++ digits.drop 6
  else
    digits

/-- The separator-stripped residue `cleaned = re.sub(r'[\s\-\(\)\.\+]', '',
str(phone_str))` of src/scrapers.py line 48. -/
def cleanedOf (phone : List Char) : List Char :=
  phone.filter (fun c => !(isSepStripped c))

/-- Embeds `validate_phone_number(phone_str)` of src/scrapers.py lines 42-58.
The guard `re.match(r'^1?\d{10}$', cleaned)` holds exactly when `cleaned` is
10 digits, or 11 digits starting with `1` (`cleaned` contains no newline, all
whitespace having been stripped, so `$` is a plain end anchor).
`cleanedOf` is the function's intermediate variable `cleaned`. -/
def validate_phone_number (phone : List Char) : Option (List Char) :=
  if phone = [] ∨ phone = ['N', '/', 'A'] then none
  else
    if (cleanedOf phone).length = 10 ∧ (cleanedOf phone).all Char.isDigit then
      some (['('] ++ (cleanedOf phone).take 3 ++ [')', ' ']
              ++ ((cleanedOf phone).drop 3).take 3 ++ ['-'] ++ (cleanedOf phone).drop 6)
    else if (cleanedOf phone).length = 11 ∧ (cleanedOf phone).head? = some '1'
        ∧ (cleanedOf phone).all Char.isDigit then
      some (['+', '1', ' ', '('] ++ ((cleanedOf phone).drop 1).take 3 ++ [')', ' ']
              ++ ((cleanedOf phone).drop 4).take 3 ++ ['-'] ++ (cleanedOf phone).drop 7)
    else none

/-! #### PHONE_REGEX

`PHONE_REGEX = re.compile(r'(?:\+?1[\s\-.]?)?\(?\d{3}\)?[\s\-.]?\d{3}[\s\-.]?\d{4}(?: *x\d{1,5})?')`
(src/enhanced_scrapers.py line 81).  The matcher below enumerates, for each
pattern element, its alternatives in Python's backtracking preference order
(greedy option consumed first); composing the element alternative lists with
`List.flatMap` enumerates full-pattern alternatives depth-first in exactly that
order, so the head of the final list is the string Python's engine matches. -/

/-- Character class `[\s\-.]` inside PHONE_REGEX (ASCII `\s`). -/
def isSepClass (c : Char) : Bool := c.isWhitespace || c = '-' || c = '.'

/-- Mandatory one-character class: remaining inputs after consuming one
character satisfying `p` (empty list when the class fails). -/
def chCl (p : Char → Bool) (cs : List Char) : List (List Char) :=
  match cs with
  | c :: rest => if p c then [rest] else []
  | [] => []

/-- Optional one-character class (`?`, greedy): consuming alternative first,
then the empty alternative. -/
def optCl (p : Char → Bool) (cs : List Char) : List (List Char) :=
  match cs with
  | c :: rest => if p c then [rest, cs] else [cs]
  | [] => [cs]

/-- Exactly `n` digits (`\d{n}`). -/
def digitsN : Nat → List Char → List (List Char)
  | 0, cs => [cs]
  | n + 1, cs => (chCl Char.isDigit cs).flatMap (digitsN n)

/-- Alternatives of the optional group `(?:\+?1[\s\-.]?)?`, greedy
(with-group alternatives first, skipping the group last). -/
def phoneIntlGroup (cs : List Char) : List (List Char) :=
  (((optCl (· = '+') cs).flatMap (chCl (· = '1'))).flatMap (optCl isSepClass)) ++ [cs]

/-- Alternatives of ` *` (greedy star over literal spaces): consume `k`
spaces for `k` from the maximal run down to 0. -/
def starSpaces (cs : List Char) : List (List Char) :=
  let k := (cs.takeWhile (· = ' ')).length
  (List.range (k + 1)).map (fun j => cs.drop (k - j))

/-- Alternatives of `\d{1,5}` (greedy): consume `m` digits for `m` from
`min 5 run` down to 1 (empty when no digit is available). -/
def digits1to5 (cs : List Char) : List (List Char) :=
  let m := min 5 (cs.takeWhile Char.isDigit).length
  (List.range m).map (fun j => cs.drop (m - j))

/-- Alternatives of the optional extension group `(?: *x\d{1,5})?`, greedy. -/
def phoneExtGroup (cs : List Char) : List (List Char) :=
  (((starSpaces cs).flatMap (chCl (· = 'x'))).flatMap digits1to5) ++ [cs]

/-- All ways PHONE_REGEX can match at the start of `cs`, as remaining
suffixes, in Python's backtracking preference order. -/
def phoneMatchAlts (cs : List Char) : List (List Char) :=
  ((((((((phoneIntlGroup cs).flatMap
      (optCl (· = '('))).flatMap
      (digitsN 3)).flatMap
      (optCl (· = ')'))).flatMap
      (optCl isSepClass)).flatMap
      (digitsN 3)).flatMap
      (optCl isSepClass)).flatMap
      (digitsN 4)).flatMap
      phoneExtGroup

/-- Models `PHONE_REGEX.findall(text)`: scan left to right; at each position
take the engine's match (head of `phoneMatchAlts`) if any, emit the consumed
characters and continue after them, else advance one character.  The pattern
always consumes at least 10 characters, so the `len = 0` guard is dead; fuel
is the input length, which bounds the number of scan steps. -/
def findallAux : Nat → List Char → List (List Char)
  | 0, _ => []
  | fuel + 1, cs =>
    match cs with
    | [] => []
    | _ :: rest =>
      match (phoneMatchAlts cs).head? with
      | some r =>
        let len := cs.length - r.length
        if len = 0 then findallAux fuel rest
        else cs.take len :: findallAux fuel (cs.drop len)
      | none => findallAux fuel rest

/-- All PHONE_REGEX matches of `cs`, in scan order. -/
def phoneFindall (cs : List Char) : List (List Char) := findallAux cs.length cs

/-- First-occurrence deduplication: models `list(dict.fromkeys(cleaned))`. -/
def dedupKeepFirst (l : List (List Char)) : List (List Char) :=
  l.foldl (fun acc c => if c ∈ acc then acc else acc ++ [c]) []

/-- Embeds `extract_phone_candidates(text)` of src/enhanced_scrapers.py lines
91-100: every regex match keeps only its digits; a match with at least 10
digits is kept, truncated to its last 10 digits when it has more than 11
(`digits[-10:]`), then formatted; finally first-occurrence deduplication. -/
def extract_phone_candidates (text : List Char) : List (List Char) :=
  let candidates := phoneFindall text
  let cleaned := candidates.filterMap (fun c =>
    let digits := digitsOf c
    if 10 ≤ digits.length then
      some (format_phone (if 11 < digits.length then digits.drop (digits.length - 10) else digits))
    else none)
  dedupKeepFirst cleaned

/-! ### Records and sessions (src/app.py) -/

/-- One extracted data point, as built by `_standard_result` and consumed by
app.py (keys `number`, `name`, `address`, `source`). -/
structure Record where
  number : List Char
  name : List Char
  address : List Char
  source : String
  deriving DecidableEq, Repr

/-- Status column of `ExtractionSession` (src/app.py line 179):
`running`, `completed`, `failed`, `stopped`; default `running`. -/
inductive SessionStatus where
  | running
  | completed
  | failed
  | stopped
  deriving DecidableEq, Repr

/-- Row of the `ExtractionSession` table (src/app.py lines 169-180), on the
fields the orchestration core mutates.  Timestamps are abstract `Nat` ticks. -/
structure Session where
  sessionId : Nat
  userId : Nat
  status : SessionStatus
  finishedAt : Option Nat
  totalResults : Nat
  deriving DecidableEq, Repr

/-- Process-wide mutable state of src/app.py: the `EXTRACTING` flag (line
407), the `EXTRACTION_STOP_EVENT` (line 408), the `ExtractionSession` table
rows, and the `EXTRACTION_DATA` global list. -/
structure AppState where
  extracting : Bool
  stopEventSet : Bool
  sessions : List Session
  extractionData : List Record
  deriving DecidableEq, Repr

/-! ### CollectorRunner: `run_scraper_with_retry` (src/app.py lines 494-530)

The Redis-backed cache (`get_cached_results` / `cache_results`, lines
463-489) is abstracted to the value it delivers for the invocation's one
key: `none` for a miss (no entry, expired entry, or Redis failure, all of
which return `None`) and `some rs` for a stored record list.  The scraper is
a function from attempt index to the outcome of that call. -/

/-- Outcome of one external scraper call as observed by
`run_scraper_with_retry`: a list result, a non-list result (line 510), or a
raised exception (line 521). -/
inductive ScraperOutcome where
  | ok (rs : List Record)
  | nonList
  | raises
  deriving DecidableEq, Repr

/-- Observable result of one `run_scraper_with_retry` invocation: the
returned list, how many times the scraper function was invoked, and the
record lists written through to the cache. -/
structure RunResult where
  returned : List Record
  scraperCalls : Nat
  cacheWrites : List (List Record)
  deriving DecidableEq, Repr

/-- Python truthiness of `cached_results` as tested by
`if cached_results:` — `None` and the empty list are both falsy. -/
def cacheHit (cache : Option (List Record)) : Bool :=
  match cache with
  | some c => !c.isEmpty
  | none => false

/-- Loop body of `run_scraper_with_retry`, structurally recursive on the
remaining iterations of `for attempt in range(max_retries)`.  Each iteration
re-checks the cache (`if cached_results:` — Python truthiness, so an empty
cached list does not short-circuit), then calls the scraper: a list result
is returned as-is, cached first when non-empty (`if results and
len(results) > 0`); a non-list result `continue`s; an exception falls to the
retry sleep and next iteration.  Exhausting the loop returns `[]`. -/
def runRetryLoop (cache : Option (List Record)) (scraper : Nat → ScraperOutcome) :
    Nat → Nat → Nat → List (List Record) → RunResult
  | 0, _, calls, writes => ⟨[], calls, writes⟩
  | rem + 1, attempt, calls, writes =>
    if cacheHit cache then
      ⟨cache.getD [], calls, writes⟩
    else
      match scraper attempt with
      | .ok rs =>
        if !rs.isEmpty then ⟨rs, calls + 1, writes ++ [rs]⟩
        else ⟨rs, calls + 1, writes⟩
      | .nonList => runRetryLoop cache scraper rem (attempt + 1) (calls + 1) writes
      | .raises => runRetryLoop cache scraper rem (attempt + 1) (calls + 1) writes

/-- Embeds `run_scraper_with_retry(platform, keywords, location,
max_retries=3)` (src/app.py lines 494-530) for one invocation key. -/
def run_scraper_with_retry (cache : Option (List Record))
    (scraper : Nat → ScraperOutcome) (maxRetries : Nat) : RunResult :=
  runRetryLoop cache scraper maxRetries 0 0 []

/-! ### Concurrent fan-out and the worker (src/app.py lines 532-754) -/

/-- Embeds the result aggregation of `run_scrapers_concurrently` (src/app.py
lines 532-565): the per-platform result lists, taken in `as_completed`
completion order, are appended one after another into `all_results`
(`all_results.extend(platform_results)`, applied only when the list is
non-empty — extending by `[]` is the identity either way).  No record is
dropped, transformed, or deduplicated. -/
def run_scrapers_concurrently (completed : List (List Record)) : List Record :=
  completed.foldl (fun acc rs => acc ++ rs) []

/-- Terminal bookkeeping of `start_extraction_worker` on its session row
(src/app.py lines 696-733).  First block (guarded by `if results:`): with a
non-empty result list, set `total_results`, `finished_at` and `status =
'completed'` unconditionally.  Second block (always run): set `finished_at`
only if unset, and `status = 'completed'` only from `'running'`. -/
def worker_finalize (s : Session) (results : List Record) (now : Nat) : Session :=
  let s1 :=
    if results.isEmpty then s
    else { s with totalResults := results.length
                  finishedAt := some now
                  status := SessionStatus.completed }
  { s1 with
      finishedAt := match s1.finishedAt with
        | none => some now
        | some t => some t
      status := if s1.status = SessionStatus.running then SessionStatus.completed
                else s1.status }

/-- Embeds `start_extraction_worker` (src/app.py lines 677-754) from the
point where the concurrently gathered per-platform results are in hand.
`crashed` selects the `except` path (lines 737-748), which stamps
`finished_at` and `status = 'failed'` unconditionally.  The `finally` block
clears the stop event and the `EXTRACTING` flag. -/
def start_extraction_worker (st : AppState) (sid : Nat)
    (completed : List (List Record)) (now : Nat) (crashed : Bool) : AppState :=
  if crashed then
    { st with
        sessions := st.sessions.map (fun s =>
          if s.sessionId = sid then
            { s with finishedAt := some now, status := SessionStatus.failed }
          else s)
        stopEventSet := false
        extracting := false }
  else
    let results := run_scrapers_concurrently completed
    { st with
        extractionData := results
        sessions := st.sessions.map (fun s =>
          if s.sessionId = sid then worker_finalize s results now else s)
        stopEventSet := false
        extracting := false }

/-! ### Control surface: `start_extraction` and `stop_extraction` -/

/-- The scraper registry keys (src/app.py lines 102-111). -/
def scraper_platforms : List String :=
  ["truepeoplesearch", "spokeo", "fastpeoplesearch", "zabasearch",
   "yellowpages", "whitepages", "manta", "yelp"]

/-- Models Python `str.strip()` (ASCII whitespace). -/
def py_strip (s : List Char) : List Char :=
  ((s.dropWhile Char.isWhitespace).reverse.dropWhile Char.isWhitespace).reverse

/-- Embeds `parse_extract_request` (src/app.py lines 641-674), JSON branch
with a list `platforms` field: keywords and location are stripped and
truncated to 500/200 characters; the platform list keeps exactly the entries
that are truthy (non-empty) and registered in `scraper_functions` — unknown
identifiers are silently dropped, not rejected. -/
def parse_extract_request (keywords location : List Char) (rawPlatforms : List String) :
    List Char × List Char × List String :=
  ((py_strip keywords).take 500,
   (py_strip location).take 200,
   rawPlatforms.filter (fun p => p ≠ "" && scraper_platforms.contains p))

/-- Response of the `/extract` route. -/
inductive StartOutcome where
  | alreadyRunning
  | emptyQuery
  | noPlatforms
  | tooManyPlatforms
  | invalidUserSession
  | sessionCreateFailed
  | threadStartFailed
  | started (sessionId : Nat)
  deriving DecidableEq, Repr

/-- Embeds `start_extraction` (src/app.py lines 760-834).  Order of checks
as in the source: `EXTRACTING` guard first; then parse; then the three
validation rejections; then the user-session check; then session creation
(`dbOk` abstracts the commit succeeding), which appends a `running` row;
then clearing `EXTRACTION_DATA` and the stop event, setting `EXTRACTING`,
and spawning the worker thread (`threadOk` abstracts `Thread.start`
succeeding — on failure the fresh session is marked `failed` and
`EXTRACTING` reset). -/
def start_extraction (st : AppState) (keywords location : List Char)
    (rawPlatforms : List String) (userValid dbOk threadOk : Bool)
    (newId userId now : Nat) : StartOutcome × AppState :=
  if st.extracting then (StartOutcome.alreadyRunning, st)
  else
    let parsed := parse_extract_request keywords location rawPlatforms
    let k := parsed.1
    let l := parsed.2.1
    let ps := parsed.2.2
    if k = [] ∧ l = [] then (StartOutcome.emptyQuery, st)
    else if ps = [] then (StartOutcome.noPlatforms, st)
    else if 10 < ps.length then (StartOutcome.tooManyPlatforms, st)
    else if !userValid then (StartOutcome.invalidUserSession, st)
    else if !dbOk then (StartOutcome.sessionCreateFailed, st)
    else
      let sess : Session :=
        { sessionId := newId, userId := userId, status := SessionStatus.running,
          finishedAt := none, totalResults := 0 }
      if !threadOk then
        (StartOutcome.threadStartFailed,
         { st with
             sessions := st.sessions ++
               [{ sess with status := SessionStatus.failed, finishedAt := some now }]
             extractionData := []
             stopEventSet := false
             extracting := false })
      else
        (StartOutcome.started newId,
         { st with
             sessions := st.sessions ++ [sess]
             extractionData := []
             stopEventSet := false
             extracting := true })

/-- Response of the `/stop-extraction` route. -/
inductive StopOutcome where
  | noExtractionRunning
  | stopRequested
  deriving DecidableEq, Repr

/-- Embeds `stop_extraction` (src/app.py lines 841-860): a no-op reply when
`EXTRACTING` is unset; otherwise set the stop event, clear `EXTRACTING`, and
move every session row whose status is `running` — whatever its user — to
`stopped` with `finished_at` stamped. -/
def stop_extraction (st : AppState) (now : Nat) : StopOutcome × AppState :=
  if !st.extracting then (StopOutcome.noExtractionRunning, st)
  else
    (StopOutcome.stopRequested,
     { st with
         extracting := false
         stopEventSet := true
         sessions := st.sessions.map (fun s =>
           if s.status = SessionStatus.running then
             { s with status := SessionStatus.stopped, finishedAt := some now }
           else s) })

/-! ### Shared lemmas -/

/-- The aggregation fold of `run_scrapers_concurrently` is concatenation. -/
theorem run_scrapers_concurrently_eq_join (completed : List (List Record)) :
    run_scrapers_concurrently completed = completed.flatten := by
  suffices h : ∀ acc : List Record, completed.foldl (fun acc rs => acc ++ rs) acc
      = acc ++ completed.flatten by
    simpa [run_scrapers_concurrently] using h []
  induction completed with
  | nil => simp
  | cons c t ih => intro acc; simp [List.flatten, ih, List.append_assoc]

/-! ### C1 — session-level deduplication -/

/-- C1, counterexample: it is not the case that the final session record set
holds at most one record per canonical phone number.  Two platforms
(`yellowpages` then `yelp`, in completion order) each contribute a record
with canonical number `(212) 555-0100`; both distinct records survive in the
final set. -/
theorem C1_counterexample :
    ¬ (∀ (completed : List (List Record)) (r1 r2 : Record),
        r1 ∈ run_scrapers_concurrently completed →
        r2 ∈ run_scrapers_concurrently completed →
        r1.number = r2.number → r1 = r2) := by
  intro h
  have hx := h
    [[⟨("(212) 555-0100").toList, ("Joe Pizza").toList, [], "yellowpages"⟩],
     [⟨("(212) 555-0100").toList, ("Joes").toList, [], "yelp"⟩]]
    ⟨("(212) 555-0100").toList, ("Joe Pizza").toList, [], "yellowpages"⟩
    ⟨("(212) 555-0100").toList, ("Joes").toList, [], "yelp"⟩
    (by decide) (by decide) (by decide)
  exact absurd hx (by decide)

/-- C1, amended: the session's final record set is exactly the concatenation
of the per-platform result lists in completion order — for every canonical
number, the final set holds as many records as all platforms together
produced with that number, so no cross-platform deduplication and no
first-arrival winner selection takes place. -/
theorem C1_amended (completed : List (List Record)) (n : List Char) :
    ((run_scrapers_concurrently completed).filter (fun r => r.number = n)).length
      = (completed.map (fun rs => (rs.filter (fun r => r.number = n)).length)).sum := by
  rw [run_scrapers_concurrently_eq_join]
  induction completed with
  | nil => simp
  | cons c t ih => simp [List.flatten, List.filter_append, ih, Function.comp_def]

/-! ### C2 — single active session guard -/

/-- C2: while `EXTRACTING` is set, `start_extraction` answers
`AlreadyRunning` and leaves the whole application state untouched — no
session row is created, no global is mutated. -/
theorem C2_already_running (st : AppState) (k l : List Char) (raw : List String)
    (uv db tk : Bool) (newId userId now : Nat) (h : st.extracting = true) :
    start_extraction st k l raw uv db tk newId userId now
      = (StartOutcome.alreadyRunning, st) := by
  simp [start_extraction, h]

/-- C2, witness: a concrete busy state rejects a fresh valid request
unchanged. -/
theorem C2_witness :
    start_extraction ⟨true, false, [], []⟩ ("pizza").toList [] ["yelp"]
        true true true 4 9 0
      = (StartOutcome.alreadyRunning, ⟨true, false, [], []⟩) :=
  C2_already_running ⟨true, false, [], []⟩ ("pizza").toList [] ["yelp"]
    true true true 4 9 0 rfl

/-! ### C3 — terminal immutability -/

/-- C3: the code violates terminal immutability.  A session already in the
terminal state `stopped` (stamped `finished_at = 5` by `stop_extraction`) is
overwritten by the straggling worker completion carrying one record: its
status becomes `completed` and `finished_at` is re-stamped to the later
time 9 (src/app.py lines 697-722 assign both unconditionally when `results`
is non-empty, unlike the guarded block at lines 725-733). -/
theorem C3_code_bug :
    (start_extraction_worker
        ⟨false, true, [⟨1, 7, SessionStatus.stopped, some 5, 0⟩], []⟩
        1 [[⟨("(212) 555-0100").toList, [], [], "yelp"⟩]] 9 false).sessions
      = [⟨1, 7, SessionStatus.completed, some 9, 1⟩] := by
  decide

/-! ### C10 — stop transitions every running session -/

/-- C10: when an extraction is active, `stop_extraction` moves every session
row whose status is `running` — regardless of which user owns it — to
`stopped` with `finished_at` stamped to the current time, and afterwards no
session is left `running`. -/
theorem C10_stop_all_running (st : AppState) (now : Nat) (h : st.extracting = true) :
    (∀ s ∈ st.sessions, s.status = SessionStatus.running →
        { s with status := SessionStatus.stopped, finishedAt := some now }
          ∈ (stop_extraction st now).2.sessions) ∧
    (∀ s' ∈ (stop_extraction st now).2.sessions, s'.status ≠ SessionStatus.running) := by
  constructor
  · intro s hs hrun
    simp only [stop_extraction, h, Bool.not_true, Bool.false_eq_true, if_false]
    exact List.mem_map.mpr ⟨s, hs, by simp [hrun]⟩
  · intro s' hs'
    simp only [stop_extraction, h, Bool.not_true, Bool.false_eq_true, if_false] at hs'
    obtain ⟨s, _, rfl⟩ := List.mem_map.mp hs'
    by_cases hr : s.status = SessionStatus.running <;> simp [hr]

/-- C10, witness: two running sessions owned by distinct users (7 and 8) are
both stopped and stamped. -/
theorem C10_witness :
    (⟨2, 8, SessionStatus.stopped, some 9, 0⟩ : Session)
      ∈ (stop_extraction
          ⟨true, false,
           [⟨1, 7, SessionStatus.running, none, 0⟩,
            ⟨2, 8, SessionStatus.running, none, 0⟩,
            ⟨3, 7, SessionStatus.completed, some 4, 5⟩], []⟩ 9).2.sessions :=
  (C10_stop_all_running
      ⟨true, false,
       [⟨1, 7, SessionStatus.running, none, 0⟩,
        ⟨2, 8, SessionStatus.running, none, 0⟩,
        ⟨3, 7, SessionStatus.completed, some 4, 5⟩], []⟩ 9 rfl).1
    ⟨2, 8, SessionStatus.running, none, 0⟩ (by decide) rfl

/-! ### C5 — canonicalization at the CollectorRunner boundary -/

/-- C5, counterexample: a record whose phone field fails canonicalization
(`validate_phone_number` rejects it and `extract_phone_candidates` finds no
candidate in it) is nevertheless accepted into the run's results unchanged —
`run_scraper_with_retry` applies no phone canonicalization to the records a
collector returns. -/
theorem C5_counterexample :
    (run_scraper_with_retry none
        (fun _ => ScraperOutcome.ok [⟨("not a phone").toList, [], [], "yelp"⟩]) 3).returned
      = [⟨("not a phone").toList, [], [], "yelp"⟩] ∧
    validate_phone_number ("not a phone").toList = none ∧
    extract_phone_candidates ("not a phone").toList = [] := by
  decide

/-- C5, amended: on a cache miss, whatever record list the collector's first
successful attempt returns is the run's result, record for record, with no
per-record canonicalization or discarding at this boundary (only an entire
non-list result is discarded, as a failed attempt); canonicalization happens
inside the collector implementations instead. -/
theorem C5_amended (scraper : Nat → ScraperOutcome) (rs : List Record)
    (h : scraper 0 = ScraperOutcome.ok rs) :
    (run_scraper_with_retry none scraper 3).returned = rs ∧
    (run_scraper_with_retry none scraper 3).scraperCalls = 1 := by
  unfold run_scraper_with_retry runRetryLoop
  rw [h]
  by_cases he : rs.isEmpty <;> simp [he, cacheHit]

/-- C5, amended, witness: a concrete well-formed record list flows through
unchanged. -/
theorem C5_witness :
    (run_scraper_with_retry none
        (fun _ => ScraperOutcome.ok [⟨("(415) 555-0123").toList, [], [], "manta"⟩]) 3).returned
      = [⟨("(415) 555-0123").toList, [], [], "manta"⟩] :=
  (C5_amended _ _ rfl).1

/-! ### C6 — retry bound -/

/-- In any run of the retry loop, the scraper is invoked at most once per
remaining loop iteration. -/
theorem runRetryLoop_calls_le (cache : Option (List Record))
    (scraper : Nat → ScraperOutcome) :
    ∀ (rem attempt calls writes_),
      (runRetryLoop cache scraper rem attempt calls writes_).scraperCalls ≤ calls + rem := by
  intro rem
  induction rem with
  | zero => intro attempt calls writes_; simp [runRetryLoop]
  | succ n ih =>
    intro attempt calls writes_
    unfold runRetryLoop
    by_cases hh : cacheHit cache = true
    · rw [if_pos hh]; exact Nat.le_add_right calls (n + 1)
    · rw [if_neg hh]
      cases hs : scraper attempt with
      | ok rs => by_cases he : rs.isEmpty <;> simp [he]
      | nonList => exact le_trans (ih (attempt + 1) (calls + 1) writes_) (by omega)
      | raises => exact le_trans (ih (attempt + 1) (calls + 1) writes_) (by omega)

/-- When the cache misses (or holds the falsy empty list) and every attempt
fails, the retry loop returns the empty list. -/
theorem runRetryLoop_all_fail (cache : Option (List Record))
    (scraper : Nat → ScraperOutcome)
    (hc : cache = none ∨ cache = some [])
    (hf : ∀ n, scraper n = ScraperOutcome.nonList ∨ scraper n = ScraperOutcome.raises) :
    ∀ (rem attempt calls writes_),
      (runRetryLoop cache scraper rem attempt calls writes_).returned = [] := by
  intro rem
  induction rem with
  | zero => intro attempt calls writes_; simp [runRetryLoop]
  | succ n ih =>
    intro attempt calls writes_
    unfold runRetryLoop
    have hh : cacheHit cache = false := by
      rcases hc with rfl | rfl <;> simp [cacheHit]
    rw [if_neg (by simp [hh])]
    rcases hf attempt with hs | hs <;> rw [hs] <;> exact ih (attempt + 1) (calls + 1) writes_

/-- C6: one invocation of `run_scraper_with_retry` (default
`max_retries=3`) invokes the collector at most 3 times whatever the cache
state and attempt outcomes are, and when the retry machinery is engaged (no
warm non-empty cache value) and no attempt succeeds it returns the empty
list; the loop absorbs every raised exception, so the invocation always
returns a value to its caller. -/
theorem C6_retry_bound (cache : Option (List Record)) (scraper : Nat → ScraperOutcome) :
    (run_scraper_with_retry cache scraper 3).scraperCalls ≤ 3 ∧
    ((cache = none ∨ cache = some []) →
      (∀ n, scraper n = ScraperOutcome.nonList ∨ scraper n = ScraperOutcome.raises) →
      (run_scraper_with_retry cache scraper 3).returned = []) := by
  refine ⟨?_, fun hc hf => ?_⟩
  · simpa using runRetryLoop_calls_le cache scraper 3 0 0 []
  · exact runRetryLoop_all_fail cache scraper hc hf 3 0 0 []

/-- C6, witness: with an empty cache and a collector that raises on every
attempt, the run makes at most 3 calls and returns the empty list. -/
theorem C6_witness :
    (run_scraper_with_retry none (fun _ => ScraperOutcome.raises) 3).scraperCalls ≤ 3 ∧
    (run_scraper_with_retry none (fun _ => ScraperOutcome.raises) 3).returned = [] :=
  ⟨(C6_retry_bound none (fun _ => ScraperOutcome.raises)).1,
   (C6_retry_bound none (fun _ => ScraperOutcome.raises)).2 (Or.inl rfl)
     (fun _ => Or.inr rfl)⟩

/-! ### C7 — cache short-circuit -/

/-- C7, counterexample: a warm cache entry holding the empty record list
does not short-circuit — `if cached_results:` is falsy on `[]`, so the
collector is still invoked (once here) and its result, not the cached value,
is returned. -/
theorem C7_counterexample :
    (run_scraper_with_retry (some [])
        (fun _ => ScraperOutcome.ok [⟨("(646) 555-0188").toList, [], [], "spokeo"⟩]) 3).scraperCalls
      = 1 ∧
    (run_scraper_with_retry (some [])
        (fun _ => ScraperOutcome.ok [⟨("(646) 555-0188").toList, [], [], "spokeo"⟩]) 3).returned
      ≠ [] := by
  decide

/-- C7, amended: given a warm cache entry holding a non-empty record list,
`run_scraper_with_retry` returns exactly the cached records, never invokes
the collector, and writes nothing back — the retry/backoff machinery is
skipped entirely. -/
theorem C7_cache_short_circuit (cache : Option (List Record)) (rs : List Record)
    (scraper : Nat → ScraperOutcome) (h : cache = some rs) (hne : rs ≠ []) :
    run_scraper_with_retry cache scraper 3 = ⟨rs, 0, []⟩ := by
  subst h
  have he : rs.isEmpty = false := by simpa [List.isEmpty_iff] using hne
  unfold run_scraper_with_retry runRetryLoop
  simp [cacheHit, he]

/-- C7, amended, witness: a concrete warm non-empty entry is returned with
zero collector calls. -/
theorem C7_witness :
    run_scraper_with_retry (some [⟨("(212) 555-0177").toList, [], [], "manta"⟩])
        (fun _ => ScraperOutcome.raises) 3
      = ⟨[⟨("(212) 555-0177").toList, [], [], "manta"⟩], 0, []⟩ :=
  C7_cache_short_circuit _ _ _ rfl (by decide)

/-! ### C8 — start validation -/

/-- The three synchronous `InvalidQuery`-style rejections of
`start_extraction` (src/app.py lines 772-777). -/
def isValidationRejection : StartOutcome → Bool
  | .emptyQuery => true
  | .noPlatforms => true
  | .tooManyPlatforms => true
  | _ => false

/-- C8, counterexample: a request carrying the unknown platform id
`"bogus"` alongside the known `"yelp"` is not rejected — the unknown id is
silently dropped by `parse_extract_request` and the extraction starts,
creating a session. -/
theorem C8_counterexample :
    (start_extraction ⟨false, false, [], []⟩ ("pizza").toList [] ["yelp", "bogus"]
        true true true 1 7 0).1 = StartOutcome.started 1 ∧
    (start_extraction ⟨false, false, [], []⟩ ("pizza").toList [] ["yelp", "bogus"]
        true true true 1 7 0).2.sessions
      = [⟨1, 7, SessionStatus.running, none, 0⟩] := by
  decide

/-- C8, amended: with no extraction active, `start_extraction` rejects
synchronously with an unchanged state (hence no session) exactly when the
stripped keywords and location are both empty, or the platform list after
dropping empty/unknown ids is empty, or that filtered list has more than 10
entries; unknown platform ids themselves are silently filtered out rather
than rejected. -/
theorem C8_validation (st : AppState) (k l : List Char) (raw : List String)
    (uv db tk : Bool) (newId userId now : Nat) (h : st.extracting = false) :
    (isValidationRejection (start_extraction st k l raw uv db tk newId userId now).1 = true ↔
      (((py_strip k).take 500 = [] ∧ (py_strip l).take 200 = []) ∨
        raw.filter (fun p => p ≠ "" && scraper_platforms.contains p) = [] ∨
        10 < (raw.filter (fun p => p ≠ "" && scraper_platforms.contains p)).length)) ∧
    (isValidationRejection (start_extraction st k l raw uv db tk newId userId now).1 = true →
      (start_extraction st k l raw uv db tk newId userId now).2 = st) := by
  simp only [start_extraction, parse_extract_request, h, Bool.false_eq_true, if_false]
  split_ifs with h1 h2 h3 h4 h5 h6 <;>
    simp_all [isValidationRejection]

/-- C8, amended, witness: both keywords and location empty is rejected with
the state unchanged. -/
theorem C8_witness :
    (start_extraction ⟨false, false, [], []⟩ [] [] ["yelp"] true true true 1 7 0).2
      = ⟨false, false, [], []⟩ :=
  (C8_validation ⟨false, false, [], []⟩ [] [] ["yelp"] true true true 1 7 0 rfl).2
    ((C8_validation ⟨false, false, [], []⟩ [] [] ["yelp"] true true true 1 7 0 rfl).1.mpr
      (Or.inl (by decide)))

/-! ### C4 / C9 — canonicalization lemmas -/

/-- Every separator stripped by `validate_phone_number` is a non-digit. -/
theorem isSepStripped_not_digit (c : Char) (h : isSepStripped c = true) :
    c.isDigit = false := by
  simp only [isSepStripped, Char.isWhitespace, Bool.or_eq_true, decide_eq_true_eq] at h
  have hc : c = ' ' ∨ c = '\t' ∨ c = '\r' ∨ c = '\n' ∨ c = '-' ∨ c = '(' ∨ c = ')'
      ∨ c = '.' ∨ c = '+' := by tauto
  rcases hc with rfl | rfl | rfl | rfl | rfl | rfl | rfl | rfl | rfl <;> decide

/-- Digits are never stripped as separators. -/
theorem isDigit_not_sep (c : Char) (h : c.isDigit = true) : isSepStripped c = false := by
  by_contra hc
  rw [Bool.not_eq_false] at hc
  rw [isSepStripped_not_digit c hc] at h
  exact absurd h (by decide)

/-- When the separator-stripped residue of a string is all digits, it equals
the string's digit subsequence: the intermediate `cleaned` of
`validate_phone_number` coincides with stripping all non-digit characters. -/
theorem digitsOf_eq_stripped (s : List Char)
    (hall : (cleanedOf s).all Char.isDigit = true) :
    digitsOf s = cleanedOf s := by
  unfold cleanedOf at hall ⊢
  induction s with
  | nil => rfl
  | cons c t ih =>
    by_cases hsep : isSepStripped c = true
    · have hd : c.isDigit = false := isSepStripped_not_digit c hsep
      simp only [List.filter_cons, hsep, Bool.not_true, Bool.false_eq_true, if_false] at hall ⊢
      simpa [digitsOf, List.filter_cons, hd] using ih hall
    · rw [Bool.not_eq_true] at hsep
      simp only [List.filter_cons, hsep, Bool.not_false, if_true, List.all_cons,
        Bool.and_eq_true] at hall ⊢
      have ht := ih hall.2
      simp only [digitsOf] at ht
      simp [digitsOf, List.filter_cons, hall.1, ht]

/-- Membership is unchanged by first-occurrence deduplication. -/
theorem mem_dedupKeepFirst (a : List Char) (l : List (List Char)) :
    a ∈ dedupKeepFirst l ↔ a ∈ l := by
  have key : ∀ (l acc : List (List Char)),
      a ∈ l.foldl (fun acc c => if c ∈ acc then acc else acc ++ [c]) acc ↔
        a ∈ acc ∨ a ∈ l := by
    intro l
    induction l with
    | nil => intro acc; simp
    | cons c t ih =>
      intro acc
      simp only [List.foldl_cons]
      rw [ih]
      by_cases hc : c ∈ acc
      · rw [if_pos hc]
        simp only [List.mem_cons]
        constructor
        · rintro (h | h); exacts [Or.inl h, Or.inr (Or.inr h)]
        · rintro (h | rfl | h); exacts [Or.inl h, Or.inl hc, Or.inr h]
      · rw [if_neg hc]
        simp only [List.mem_append, List.mem_cons, List.mem_singleton]
        tauto
  unfold dedupKeepFirst
  rw [key]
  simp

/-- C4, counterexample: it is not the case that an input whose digit residue
has a count other than 10 (or 11 with leading `1`) contributes no canonical
phone.  The input `"2125550100 x55"` has 12 digits once non-digits are
stripped, yet candidate extraction produces `"(255) 501-0055"` — the
trailing extension digits are folded into a truncated 10-digit window
instead of the match being rejected. -/
theorem C4_counterexample :
    ¬ (∀ s : List Char,
        (digitsOf s).length ≠ 10 →
        ¬ ((digitsOf s).length = 11 ∧ (digitsOf s).head? = some '1') →
        extract_phone_candidates s = []) := by
  intro h
  have hx := h ("2125550100 x55").toList (by decide) (by decide)
  exact absurd hx (by decide)

/-- C4, amended: `validate_phone_number` produces a canonical result only
when stripping non-digits leaves exactly 10 digits, or 11 digits with a
leading `1` (dropped before formatting), and rejects everything else with
`None`; `extract_phone_candidates`, by contrast, keeps every regex match
with at least 10 digits — a match with more than 11 digits is truncated to
its last 10 before formatting (and an 11-digit match without a leading 1 is
kept as bare digits), so such digit counts do contribute candidates. -/
theorem C4_canonical :
    (∀ (s r : List Char), validate_phone_number s = some r →
        (digitsOf s).length = 10 ∨
          ((digitsOf s).length = 11 ∧ (digitsOf s).head? = some '1')) ∧
    (∀ (t m : List Char), m ∈ phoneFindall t → 10 ≤ (digitsOf m).length →
        format_phone (if 11 < (digitsOf m).length
            then (digitsOf m).drop ((digitsOf m).length - 10)
            else digitsOf m)
          ∈ extract_phone_candidates t) := by
  constructor
  · intro s r h
    rw [validate_phone_number] at h
    by_cases h0 : s = [] ∨ s = ['N', '/', 'A']
    · rw [if_pos h0] at h
      exact absurd h (by simp)
    · rw [if_neg h0] at h
      by_cases h1 : (cleanedOf s).length = 10 ∧ (cleanedOf s).all Char.isDigit = true
      · rw [digitsOf_eq_stripped s h1.2]
        exact Or.inl h1.1
      · rw [if_neg (by simpa using h1)] at h
        by_cases h2 : (cleanedOf s).length = 11 ∧ (cleanedOf s).head? = some '1'
            ∧ (cleanedOf s).all Char.isDigit = true
        · rw [digitsOf_eq_stripped s h2.2.2]
          exact Or.inr ⟨h2.1, h2.2.1⟩
        · rw [if_neg (by simpa using h2)] at h
          exact absurd h (by simp)
  · intro t m hm hlen
    unfold extract_phone_candidates
    rw [mem_dedupKeepFirst]
    exact List.mem_filterMap.mpr ⟨m, hm, by simp [hlen]⟩

/-- C4, amended, witness: `"212-555-0100"` canonicalizes with a 10-digit
residue, and the 12-digit match of `"2125550100 x55"` contributes the
truncated candidate. -/
theorem C4_witness :
    ((digitsOf ("212-555-0100").toList).length = 10 ∨
      ((digitsOf ("212-555-0100").toList).length = 11 ∧
        (digitsOf ("212-555-0100").toList).head? = some '1')) ∧
    format_phone (if 11 < (digitsOf ("2125550100 x55").toList).length
        then (digitsOf ("2125550100 x55").toList).drop
          ((digitsOf ("2125550100 x55").toList).length - 10)
        else digitsOf ("2125550100 x55").toList)
      ∈ extract_phone_candidates ("2125550100 x55").toList :=
  ⟨C4_canonical.1 ("212-555-0100").toList ("(212) 555-0100").toList (by decide),
   C4_canonical.2 ("2125550100 x55").toList ("2125550100 x55").toList
     (by decide) (by decide)⟩

/-- C9: for any 10-digit string `D`, `format_phone` and
`validate_phone_number` both yield `(DDD) DDD-DDDD` with `D`'s digits
grouped 3-3-4 in order, and stripping the non-digit characters from that
formatted string recovers exactly `D`. -/
theorem C9_roundtrip (D : List Char) (hlen : D.length = 10)
    (hdig : D.all Char.isDigit = true) :
    format_phone D
        = ['('] ++ D.take 3 ++ [')', ' '] ++ (D.drop 3).take 3 ++ ['-'] ++ D.drop 6 ∧
    validate_phone_number D
        = some (['('] ++ D.take 3 ++ [')', ' '] ++ (D.drop 3).take 3 ++ ['-'] ++ D.drop 6) ∧
    digitsOf (['('] ++ D.take 3 ++ [')', ' '] ++ (D.drop 3).take 3 ++ ['-'] ++ D.drop 6)
        = D := by
  have hmem : ∀ a ∈ D, a.isDigit = true := List.all_eq_true.mp hdig
  have hne : D ≠ [] := by
    intro h
    rw [h] at hlen
    exact absurd hlen (by decide)
  have hna : D ≠ ['N', '/', 'A'] := by
    intro h
    rw [h] at hlen
    exact absurd hlen (by decide)
  have hfilter : cleanedOf D = D := by
    rw [cleanedOf, List.filter_eq_self]
    intro a ha
    simp [isDigit_not_sep a (hmem a ha)]
  have hsub : ∀ l : List Char, l ⊆ D → l.filter Char.isDigit = l := by
    intro l hl
    rw [List.filter_eq_self]
    intro a ha
    exact hmem a (hl ha)
  refine ⟨?_, ?_, ?_⟩
  · rw [format_phone, if_neg, if_pos hlen]
    rintro ⟨-, h2⟩
    rw [hlen] at h2
    exact absurd h2 (by decide)
  · rw [validate_phone_number, if_neg (by simp [hne, hna])]
    simp only [hfilter]
    rw [if_pos ⟨hlen, hdig⟩]
  · simp only [digitsOf, List.filter_append,
      hsub (D.take 3) (List.take_subset 3 D),
      hsub ((D.drop 3).take 3) (subset_trans (List.take_subset 3 (D.drop 3)) (List.drop_subset 3 D)),
      hsub (D.drop 6) (List.drop_subset 6 D)]
    have h1 : List.filter Char.isDigit ['('] = [] := by decide
    have h2 : List.filter Char.isDigit [')', ' '] = [] := by decide
    have h3 : List.filter Char.isDigit ['-'] = [] := by decide
    rw [h1, h2, h3]
    simp only [List.nil_append, List.append_nil]
    rw [← List.take_add]
    exact List.take_append_drop 6 D

/-- C9, witness: the concrete 10-digit string `4155552671` round-trips. -/
theorem C9_witness :
    format_phone ("4155552671").toList = ("(415) 555-2671").toList ∧
    validate_phone_number ("4155552671").toList = some (("(415) 555-2671").toList) ∧
    digitsOf (("(415) 555-2671").toList) = ("4155552671").toList := by
  have h := C9_roundtrip ("4155552671").toList (by decide) (by decide)
  exact h

end PhoneExtractor
